import Mathlib

/-!
Shallow embedding of the linuxforhealth x12 validation code
(`src/linuxforhealth/x12/validators.py` and the loop models of the
835/837/271 transaction sets) together with proofs about the
structural and business validators described in the specification.

Decimal values are embedded as exact rationals, optional fields as
`Option`, raised Python errors as explicit result constructors.
-/

namespace X12

/-- Result of running a Python validator: success, a raised `ValueError`
carrying a payload of type `ε` (caught by the validation framework and
reported as a validation failure), or a raised `TypeError` (not converted
to a validation failure by the pydantic v2 framework the code runs under). -/
inductive PyResult (ε α : Type) where
  | ok (value : α)
  | valueError (err : ε)
  | typeError (msg : String)
deriving DecidableEq

/-- Whether a validator run succeeded (no error was raised). -/
def PyResult.isOk {ε α : Type} : PyResult ε α → Bool
  | .ok _ => true
  | .valueError _ => false
  | .typeError _ => false

/-- Message of the `TypeError` raised by Python when a `for` loop iterates
over a stored `None` value. -/
def noneIterMsg : String := "NoneType object is not iterable"

/-! ## validators.py : `_validate_duplicate_codes` and its DTP wrapper -/

/-- The structured content of the `ValueError` raised by
`_validate_duplicate_codes`: the message
`f"Duplicate {segment_name}.{code_field} codes {duplicate_codes}"`
names the repeating segment collection, the qualifier field, and the set
of duplicated code values.  Python renders the set nondeterministically,
so the payload is kept structured. -/
structure DupCodeError where
  segment_name : String
  code_field : String
  duplicate_codes : Finset (Option String)
deriving DecidableEq

/-- The tally step of `_validate_duplicate_codes`: `codes` is the list of
`segment.get(code_field)` projections (a missing field yields `none`); the
duplicate set is `{k for k, v in codes.items() if v > 1}`. -/
def duplicateCodes (codes : List (Option String)) : Finset (Option String) :=
  (codes.filter (fun c => 1 < codes.count c)).toFinset

/-- `_validate_duplicate_codes(values, segment_name, code_field)` applied to
the projected code list: raises `ValueError` naming the collection, the field
and the duplicate set whenever the duplicate set is nonempty. -/
def _validate_duplicate_codes (codes : List (Option String))
    (segment_name code_field : String) : Except DupCodeError Unit :=
  if duplicateCodes codes ≠ ∅ then
    .error ⟨segment_name, code_field, duplicateCodes codes⟩
  else
    .ok ()

/-- A DTP segment; only the qualifier field is read by the validator. -/
structure DtpSegment where
  date_time_qualifier : String
deriving DecidableEq

/-- A loop carrying an optional repeating DTP collection, as the 837
`Loop2300` models do (`dtp_segment: Optional[List[...]] = None`). -/
structure DtpLoop where
  dtp_segment : Option (List DtpSegment)
deriving DecidableEq

/-- `validate_duplicate_date_qualifiers(self)`: dumps the loop and calls
`_validate_duplicate_codes(values, "dtp_segment", "date_time_qualifier")`.
The dumped dict contains the key `"dtp_segment"` even when the field is
unset, holding `None`; `values.get("dtp_segment", [])` then returns that
stored `None` and `for segment in None` raises `TypeError`. -/
def validate_duplicate_date_qualifiers (l : DtpLoop) :
    PyResult DupCodeError DtpLoop :=
  match l.dtp_segment with
  | none => .typeError noneIterMsg
  | some segs =>
    match _validate_duplicate_codes
        (segs.map (fun s => some s.date_time_qualifier))
        "dtp_segment" "date_time_qualifier" with
    | .error e => .valueError e
    | .ok _ => .ok l

/-- Specification-side description of the duplicated values: the qualifier
values that occur on at least two occurrences within the loop instance. -/
def specDupValues (codes : List (Option String)) : Finset (Option String) :=
  (codes.filter (fun c => 2 ≤ codes.count c)).toFinset

/-- The DTP loop of the §8 example scenario: three DTP occurrences with
qualifiers D8, RD8, D8. -/
def dtpD8Example : DtpLoop :=
  ⟨some [⟨"D8"⟩, ⟨"RD8"⟩, ⟨"D8"⟩]⟩

/-! ## validators.py : `validate_date_field` (with spec-modelled `parse_x12_date`) -/

/-- Value of a digit character, mirroring `int` parsing of one character. -/
def digitVal (c : Char) : Option ℕ :=
  if c.isDigit then some (c.toNat - 48) else none

/-- Numeric value of a nonempty all-digit character list. -/
def digitsToNat (cs : List Char) : Option ℕ :=
  if cs = [] then none
  else cs.foldl
    (fun acc c => acc.bind (fun n => (digitVal c).map (fun d => n * 10 + d)))
    (some 0)

/-- Modelled from the spec: `parse_x12_date` lives in `support.py`, which is
not part of the excerpted source.  Per the specification a single date value
must "independently parse as a valid X12 date"; the D8 qualifier of the
source denotes an eight character `CCYYMMDD` date, so the model accepts
exactly the 8-digit strings whose month and day components are in range,
returning the parsed (year, month, day) triple. -/
def parse_x12_date (s : String) : Option (ℕ × ℕ × ℕ) :=
  let cs := s.data
  if cs.length = 8 then
    match digitsToNat (cs.take 4), digitsToNat ((cs.drop 4).take 2),
        digitsToNat (cs.drop 6) with
    | some y, some m, some d =>
      if 1 ≤ m ∧ m ≤ 12 ∧ 1 ≤ d ∧ d ≤ 31 then some (y, m, d) else none
    | _, _, _ => none
  else none

/-- Splitting of a character list at every dash, mirroring the Python
`v.split("-")`: the separator occurrences are removed and the (possibly
empty) pieces between them are kept, so a string with `k` dashes yields
`k + 1` pieces. -/
def splitDash : List Char → List (List Char)
  | [] => [[]]
  | c :: rest =>
    let r := splitDash rest
    if c = '-' then [] :: r
    else
      match r with
      | [] => [[c]]
      | p :: ps => (c :: p) :: ps

/-- The dash-separated pieces of a string, as strings. -/
def dashParts (v : String) : List String :=
  (splitDash v.data).map (fun cs => String.mk cs)

/-- Value returned by `validate_date_field`: the `RD8` branch and the
no-qualifier branch return the raw string unchanged, while the single-date
branch returns the object parsed by `parse_x12_date`. -/
inductive DateFieldValue where
  | raw (s : String)
  | parsed (d : ℕ × ℕ × ℕ)
deriving DecidableEq

/-- `validate_date_field(cls, v, info)` for a string value `v`:
`qualifier = info.data.get("date_time_period_format_qualifier")`; a missing
or empty (falsy) qualifier returns `v` unvalidated; an `RD8` qualifier
requires a dash and validates every dash-separated piece as an X12 date
(raising on the first invalid piece); any other qualifier parses `v` as a
single X12 date. -/
def validate_date_field (qualifier : Option String) (v : String) :
    PyResult String DateFieldValue :=
  if qualifier = none ∨ qualifier = some "" then
    .ok (.raw v)
  else if qualifier = some "RD8" then
    if v.data.contains '-' = false then
      .valueError s!"Invalid date range {v}"
    else
      match (dashParts v).find? (fun d => (parse_x12_date d).isNone) with
      | some d => .valueError s!"Invalid date value {d}"
      | none => .ok (.raw v)
  else
    match parse_x12_date v with
    | some dt => .ok (.parsed dt)
    | none => .valueError s!"Invalid date value {v}"

/-! ## validators.py : `validate_segment_count` (with spec-modelled `count_segments`) -/

/-- Modelled from the spec: `count_segments` lives in `support.py`, which is
not part of the excerpted source.  Per specification §4.3 it counts "the
number of segments actually bound into the tree (header + all loops +
footer, recursively)", so the dumped model is a tree of segments nested in
groups and the count is the number of segment leaves. -/
inductive X12Node where
  | segment : X12Node
  | group (children : List X12Node) : X12Node

mutual

/-- Modelled from the spec: recursive segment count of a dumped tree. -/
def count_segments : X12Node → ℕ
  | .segment => 1
  | .group children => count_segments_list children

/-- Modelled from the spec: recursive segment count of a forest. -/
def count_segments_list : List X12Node → ℕ
  | [] => 0
  | t :: ts => count_segments t + count_segments_list ts

end

/-- The SE footer segment: the declared transaction segment count, `none`
when the field carries no usable value. -/
structure SeSegment where
  transaction_segment_count : Option ℤ
deriving DecidableEq

/-- The transaction set footer. -/
structure Footer where
  se_segment : SeSegment

/-- Modelled from the spec: the dumped shape of an assembled transaction
set, the header and loop segments (`body`) plus the footer, whose SE
segment is itself one segment of the tree. -/
structure TransactionSetModel where
  body : List X12Node
  footer : Footer

/-- The count computed by `count_segments(self.model_dump())`: every
segment of the body plus the footer SE segment itself. -/
def TransactionSetModel.actualCount (t : TransactionSetModel) : ℕ :=
  count_segments_list t.body + 1

/-- Python truthiness of the declared count (`if not expected_count`):
`None` and `0` are falsy. -/
def truthyCount : Option ℤ → Bool
  | none => false
  | some n => n != 0

/-- `validate_segment_count(self)`: a falsy declared count raises the
not-found `ValueError`; otherwise a mismatch between the declared and the
recursively counted segments raises the count mismatch `ValueError`. -/
def validate_segment_count (t : TransactionSetModel) :
    PyResult String TransactionSetModel :=
  let expected_count := t.footer.se_segment.transaction_segment_count
  if truthyCount expected_count = false then
    .valueError "Expected transaction count not found in SE segment"
  else
    let expected : ℤ := expected_count.getD 0
    let actual : ℤ := (t.actualCount : ℤ)
    if expected ≠ actual then
      .valueError s!"SE segment count {expected} != actual count {actual}"
    else
      .ok t

/-- Replace the declared trailer count of a transaction set. -/
def TransactionSetModel.withCount (t : TransactionSetModel) (n : ℤ) :
    TransactionSetModel :=
  { t with footer := ⟨⟨some n⟩⟩ }

/-! ## 835 005010X221A1 : `Loop2100.validate_balance` and `validate_lx_header` -/

namespace X835

/-- CLP segment: the two monetary fields read by the balance validator. -/
structure ClpSegment where
  total_claim_charge_amount : ℚ
  claim_payment_amount : ℚ
deriving DecidableEq

/-- CAS segment: the six positional monetary amount slots read by the
balance validator (`monetary_amount_1` .. `monetary_amount_6`), every one
of which is optional in the segment model. -/
structure CasSegment where
  monetary_amount_1 : Option ℚ := none
  monetary_amount_2 : Option ℚ := none
  monetary_amount_3 : Option ℚ := none
  monetary_amount_4 : Option ℚ := none
  monetary_amount_5 : Option ℚ := none
  monetary_amount_6 : Option ℚ := none
deriving DecidableEq

/-- Loop 2110 (service line payment): only the optional CAS list is read
by the balance validator; the other segment bindings are omitted. -/
structure Loop2110 where
  cas_segment : Option (List CasSegment) := none
deriving DecidableEq

/-- Loop 2100 (claim payment information): the fields read by
`validate_balance`; the other segment bindings (NM1, MIA, ...) are not
read by the validators under study and are omitted. -/
structure Loop2100 where
  clp_segment : ClpSegment
  cas_segment : Option (List CasSegment) := none
  loop_2110 : Option (List Loop2110) := none
deriving DecidableEq

/-- Python `amount if amount else Decimal("0.0")`: a missing (`None`) slot
contributes zero (and a stored zero is likewise falsy). -/
def amountOrZero (a : Option ℚ) : ℚ :=
  match a with
  | none => 0
  | some x => if x = 0 then 0 else x

/-- The inner `for i in range(1, 7)` accumulation over the six
`monetary_amount_i` slots of one CAS segment. -/
def CasSegment.adjustment (c : CasSegment) : ℚ :=
  amountOrZero c.monetary_amount_1 + amountOrZero c.monetary_amount_2 +
    amountOrZero c.monetary_amount_3 + amountOrZero c.monetary_amount_4 +
    amountOrZero c.monetary_amount_5 + amountOrZero c.monetary_amount_6

/-- `Loop2100.validate_balance(self)`.  `getattr(self, "cas_segment", [])`
returns the stored field value, which is `None` when no claim level CAS
segment is bound (the field exists, so the `[]` default is never used, and
there is no `or []` as on the `loop_2110` line); the subsequent
`for adjustment in cas_segments` then raises `TypeError`.  With a bound
CAS list the adjustments of both nesting levels are accumulated and the
balance `charge - payment = adjustments` is enforced exactly. -/
def Loop2100.validate_balance (l : Loop2100) : PyResult String Loop2100 :=
  let charge_amount := l.clp_segment.total_claim_charge_amount
  let payment_amount := l.clp_segment.claim_payment_amount
  match l.cas_segment with
  | none => .typeError noneIterMsg
  | some cas_segments =>
    let claimLevel : ℚ :=
      cas_segments.foldl (fun acc c => acc + c.adjustment) 0
    let loop_2110 := l.loop_2110.getD []
    let adjustment_amount : ℚ :=
      loop_2110.foldl
        (fun acc sp =>
          acc + (sp.cas_segment.getD []).foldl (fun a c => a + c.adjustment) 0)
        claimLevel
    if charge_amount - payment_amount ≠ adjustment_amount then
      .valueError
        s!"Unable to balance charge amount {charge_amount} paid amount {payment_amount} against adjustments {adjustment_amount}"
    else
      .ok l

/-- Specification-side view of one CAS segment: the sum of its six
positional amount slots, a missing or `None` slot contributing zero. -/
def CasSegment.amountSum (c : CasSegment) : ℚ :=
  c.monetary_amount_1.getD 0 + c.monetary_amount_2.getD 0 +
    c.monetary_amount_3.getD 0 + c.monetary_amount_4.getD 0 +
    c.monetary_amount_5.getD 0 + c.monetary_amount_6.getD 0

/-- The CAS segments bound at the nested Loop2110 level, in order. -/
def serviceCas : List Loop2110 → List CasSegment
  | [] => []
  | sp :: sps => sp.cas_segment.getD [] ++ serviceCas sps

/-- Specification-side view: every CAS adjustment segment bound at the two
nesting levels of a Loop2100 (the loop itself and its Loop2110 children). -/
def Loop2100.allCasSegments (l : Loop2100) : List CasSegment :=
  l.cas_segment.getD [] ++ serviceCas (l.loop_2110.getD [])

/-- LX segment: the assigned claim group number. -/
structure LxSegment where
  assigned_number : ℤ
deriving DecidableEq

/-- Loop 2000 (claim payment header number): only the LX segment is read
by `validate_lx_header`. -/
structure Loop2000 where
  lx_segment : LxSegment
deriving DecidableEq

/-- The 835 transaction set: only the Loop2000 list is read by
`validate_lx_header`; header, payer/payee loops and footer are omitted. -/
structure HealthCareClaimPayment where
  loop_2000 : List Loop2000
deriving DecidableEq

/-- The LX assigned numbers of a transaction set, in document order. -/
def HealthCareClaimPayment.lxNumbers (t : HealthCareClaimPayment) : List ℤ :=
  t.loop_2000.map (fun l => l.lx_segment.assigned_number)

/-- The scan of `validate_lx_header`: walk the numbers keeping the set of
numbers already seen, returning the first number found twice. -/
def firstDuplicate (seen : List ℤ) : List ℤ → Option ℤ
  | [] => none
  | n :: ns => if n ∈ seen then some n else firstDuplicate (n :: seen) ns

/-- `HealthCareClaimPayment.validate_lx_header(self)`: raises
`ValueError(f"duplicate assigned_numbers {n}")` at the first LX assigned
number already seen within the transaction set. -/
def HealthCareClaimPayment.validate_lx_header (t : HealthCareClaimPayment) :
    PyResult String HealthCareClaimPayment :=
  match firstDuplicate [] t.lxNumbers with
  | some n => .valueError s!"duplicate assigned_numbers {n}"
  | none => .ok t

end X835

/-! ## 837 004010X096A1 : `Loop2300.validate_claim_amounts` -/

namespace X837v4010

/-- CLM segment: the total claim charge amount (CLM02). -/
structure ClmSegment where
  total_claim_charge_amount : ℚ
deriving DecidableEq

/-- SV2 segment: the service line charge amount (SV102). -/
structure Sv2Segment where
  line_item_charge_amount : ℚ
deriving DecidableEq

/-- Loop 2400 (service line): only the SV2 segment is read by the
claim amount validator. -/
structure Loop2400 where
  sv2_segment : Sv2Segment
deriving DecidableEq

/-- Loop 2300 (claim): the fields read by `validate_claim_amounts`; the
loop binds further segments (DTP, REF, HI, ...) that the validator does
not read and that are omitted here.  `loop_2400` is a required list. -/
structure Loop2300 where
  clm_segment : ClmSegment
  loop_2400 : List Loop2400
deriving DecidableEq

/-- The claim balance error message
`f"Claim Amount {claim_amount} != Service Line Total {line_total}"`. -/
def balanceMsg (claim_amount line_total : ℚ) : String :=
  s!"Claim Amount {claim_amount} != Service Line Total {line_total}"

/-- `Loop2300.validate_claim_amounts(self)` of the 004010X096A1 model:
enforces `CLM02 == SUM(Loop2400.SV102)` exactly. -/
def Loop2300.validate_claim_amounts (l : Loop2300) : PyResult String Loop2300 :=
  let claim_amount := l.clm_segment.total_claim_charge_amount
  let line_total : ℚ :=
    l.loop_2400.foldl (fun acc line => acc + line.sv2_segment.line_item_charge_amount) 0
  if claim_amount ≠ line_total then
    .valueError (balanceMsg claim_amount line_total)
  else
    .ok l

/-- Specification-side view: the sum of the service line charge amounts. -/
def Loop2300.lineTotal (l : Loop2300) : ℚ :=
  (l.loop_2400.map (fun line => line.sv2_segment.line_item_charge_amount)).sum

/-- Add `0.01` to the charge amount of service line `i` (zero based),
leaving every other line unchanged. -/
def perturbLines : List Loop2400 → ℕ → List Loop2400
  | [], _ => []
  | line :: rest, 0 => ⟨⟨line.sv2_segment.line_item_charge_amount + 1 / 100⟩⟩ :: rest
  | line :: rest, i + 1 => line :: perturbLines rest i

/-- The claim loop with service line `i` perturbed by one cent. -/
def Loop2300.perturb (l : Loop2300) (i : ℕ) : Loop2300 :=
  ⟨l.clm_segment, perturbLines l.loop_2400 i⟩

end X837v4010

/-! ## 837 005010X223A3 : `Loop2300.validate_claim_amounts` -/

namespace X837v5010

/-- CLM segment: the total claim charge amount (CLM02). -/
structure ClmSegment where
  total_claim_charge_amount : ℚ
deriving DecidableEq

/-- SV2 segment: the service line charge amount (SV102). -/
structure Sv2Segment where
  line_item_charge_amount : ℚ
deriving DecidableEq

/-- Loop 2400 (service line): only the SV2 segment is read by the
claim amount validator. -/
structure Loop2400 where
  sv2_segment : Sv2Segment
deriving DecidableEq

/-- Loop 2300 (claim) of the 005010X223A3 model: the fields read by its
`validate_claim_amounts` root validator, which receives the validated
`values` dict (`values.get("clm_segment")`, `values.get("loop_2400", [])`);
`loop_2400` is a required list. -/
structure Loop2300 where
  clm_segment : ClmSegment
  loop_2400 : List Loop2400
deriving DecidableEq

/-- The claim balance error message of the 005010X223A3 validator. -/
def balanceMsg (claim_amount line_total : ℚ) : String :=
  s!"Claim Amount {claim_amount} != Service Line Total {line_total}"

/-- `Loop2300.validate_claim_amounts(cls, values)` of the 005010X223A3
model: enforces `CLM02 == SUM(Loop2400.SV102)` exactly. -/
def Loop2300.validate_claim_amounts (l : Loop2300) : PyResult String Loop2300 :=
  let claim_amount := l.clm_segment.total_claim_charge_amount
  let line_total : ℚ :=
    l.loop_2400.foldl (fun acc line => acc + line.sv2_segment.line_item_charge_amount) 0
  if claim_amount ≠ line_total then
    .valueError (balanceMsg claim_amount line_total)
  else
    .ok l

/-- Specification-side view: the sum of the service line charge amounts. -/
def Loop2300.lineTotal (l : Loop2300) : ℚ :=
  (l.loop_2400.map (fun line => line.sv2_segment.line_item_charge_amount)).sum

/-- Add `0.01` to the charge amount of service line `i` (zero based),
leaving every other line unchanged. -/
def perturbLines : List Loop2400 → ℕ → List Loop2400
  | [], _ => []
  | line :: rest, 0 => ⟨⟨line.sv2_segment.line_item_charge_amount + 1 / 100⟩⟩ :: rest
  | line :: rest, i + 1 => line :: perturbLines rest i

/-- The claim loop with service line `i` perturbed by one cent. -/
def Loop2300.perturb (l : Loop2300) (i : ℕ) : Loop2300 :=
  ⟨l.clm_segment, perturbLines l.loop_2400 i⟩

end X837v5010

/-! ## 271 005010X279A1 : `Loop2110C` and its root validators -/

namespace X271

/-- EB segment: the eligibility benefit information code. -/
structure EbSegment where
  eligibility_benefit_information : String
deriving DecidableEq

/-- REF segment of Loop2110: the reference identification qualifier. -/
structure Loop2110RefSegment where
  reference_identification_qualifier : String
deriving DecidableEq

/-- Loop 2110C (subscriber eligibility or benefit information): the fields
read by its two root validators; the other bindings (HSD, DTP, AAA, MSG,
nested loops) are omitted. -/
structure Loop2110C where
  eb_segment : EbSegment
  ref_segment : Option (List Loop2110RefSegment) := none
deriving DecidableEq

/-- The `values` dict lookup `values.get(key, [])` for a REF-list valued
key of a dumped Loop2110C.  The only REF-list key of the model is
`"ref_segment"`; any other key (in particular the `"ref_segments"` key the
red cross validator asks for) is absent from the dict and yields the `[]`
default. -/
def Loop2110C.getRefList (l : Loop2110C) (key : String) :
    List Loop2110RefSegment :=
  if key = "ref_segment" then l.ref_segment.getD [] else []

/-- A validator level violation of the 271 loops: a duplicate code
violation or a red cross code restriction violation (carrying the
offending qualifier set of the raised message). -/
inductive V271Error where
  | dup (e : DupCodeError)
  | redCross (ref_types : Finset String)
deriving DecidableEq

/-- `validate_duplicate_ref_codes(self)` specialised to Loop2110C:
`_validate_duplicate_codes(dump, "ref_segment", "reference_identification_qualifier")`
over the bound REF segments. -/
def Loop2110C.validate_duplicate_ref_codes (l : Loop2110C) :
    Except V271Error Loop2110C :=
  match _validate_duplicate_codes
      ((l.ref_segment.getD []).map
        (fun r => some r.reference_identification_qualifier))
      "ref_segment" "reference_identification_qualifier" with
  | .error e => .error (.dup e)
  | .ok _ => .ok l

/-- The REF qualifier codes permitted when American Red Cross is the
eligibility benefit. -/
def arc_ref_types : Finset String := {"1W", "49", "F6", "NQ"}

/-- `Loop2110C.validate_red_cross_eb_ref_codes(cls, values)`: collects
`ref_types` from `values.get("ref_segments", [])` - the model field is
named `ref_segment`, so this lookup always yields the `[]` default - and
raises only when `ref_types` is nonempty, the benefit code is `"R"` and
some collected qualifier lies outside the permitted set. -/
def Loop2110C.validate_red_cross_eb_ref_codes (l : Loop2110C) :
    Except V271Error Loop2110C :=
  let benefit_code := l.eb_segment.eligibility_benefit_information
  let ref_types : Finset String :=
    ((l.getRefList "ref_segments").map
      (fun r => r.reference_identification_qualifier)).toFinset
  if ref_types ≠ ∅ ∧ benefit_code = "R" ∧ ref_types \ arc_ref_types ≠ ∅ then
    .error (.redCross ref_types)
  else
    .ok l

/-- The post root validator loop of the validation framework (pydantic)
that the source attaches its checks to with
`root_validator(skip_on_failure=True)`: the declared validators run in
order over an accumulating error list; a validator flagged
`skip_on_failure` is skipped once any error has been recorded; a raised
error is appended to the list and the loop continues with the next
validator. -/
def runPostRootValidators {α ε : Type}
    (validators : List (Bool × (α → Except ε α))) (a : α) : α × List ε :=
  validators.foldl
    (fun acc v =>
      if v.1 && !acc.2.isEmpty then acc
      else
        match v.2 acc.1 with
        | .ok a2 => (a2, acc.2)
        | .error e => (acc.1, acc.2 ++ [e]))
    (a, [])

/-- The two root validators declared on Loop2110C, in declaration order,
both flagged `skip_on_failure=True`. -/
def loop2110CValidators : List (Bool × (Loop2110C → Except V271Error Loop2110C)) :=
  [(true, Loop2110C.validate_duplicate_ref_codes),
   (true, Loop2110C.validate_red_cross_eb_ref_codes)]

/-- A Loop2110C holding an American Red Cross benefit (`"R"`) together
with one bound REF segment whose qualifier `"9X"` lies outside the
permitted set: per the specification the code restriction check must
reject it. -/
def redCrossBadLoop : Loop2110C :=
  ⟨⟨"R"⟩, some [⟨"9X"⟩]⟩

/-- A Loop2110C with two independent claim level violations: its two REF
segments carry the same qualifier `"9X"` (a duplicate code violation) and
that qualifier is outside the set permitted for the American Red Cross
benefit `"R"` (a code restriction violation per the specification). -/
def twoViolationLoop : Loop2110C :=
  ⟨⟨"R"⟩, some [⟨"9X"⟩, ⟨"9X"⟩]⟩

end X271

/-! ## Helper lemmas -/

/-- Accumulating fold of rational contributions equals the starting value
plus the sum of the mapped list. -/
theorem foldl_add_map_sum {α : Type} (f : α → ℚ) (xs : List α) (c : ℚ) :
    xs.foldl (fun a x => a + f x) c = c + (xs.map f).sum := by
  induction xs generalizing c with
  | nil => simp
  | cons x xs ih => simp [ih, add_assoc]

namespace X835

/-- The Python falsy-guarded amount equals the `None`-defaulted amount. -/
theorem amountOrZero_eq (a : Option ℚ) : amountOrZero a = a.getD 0 := by
  cases a with
  | none => rfl
  | some x =>
    by_cases hx : x = 0 <;> simp [amountOrZero, hx]

/-- The accumulated adjustment of one CAS segment is the sum of its six
amount slots, missing slots contributing zero. -/
theorem adjustment_eq (c : CasSegment) : c.adjustment = c.amountSum := by
  simp [CasSegment.adjustment, CasSegment.amountSum, amountOrZero_eq]

/-- Folding the per segment adjustments of a CAS list sums its slot sums. -/
theorem foldl_adjustment (xs : List CasSegment) (c : ℚ) :
    xs.foldl (fun a s => a + s.adjustment) c = c + (xs.map CasSegment.amountSum).sum := by
  have h : (fun (a : ℚ) (s : CasSegment) => a + s.adjustment) =
      fun a s => a + s.amountSum := by
    funext a s
    rw [adjustment_eq]
  rw [h, foldl_add_map_sum]

/-- The slot sums of the flattened service level CAS segments equal the
per service line inner sums. -/
theorem serviceCas_sum (sps : List Loop2110) :
    ((serviceCas sps).map CasSegment.amountSum).sum =
      (sps.map (fun sp => ((sp.cas_segment.getD []).map CasSegment.amountSum).sum)).sum := by
  induction sps with
  | nil => simp [serviceCas]
  | cons sp sps ih => simp [serviceCas, ih]

end X835

/-- The scan of `validate_lx_header` finds no duplicate exactly when the
remaining numbers are distinct among themselves and from those seen. -/
theorem firstDuplicate_eq_none (ns : List ℤ) :
    ∀ seen : List ℤ,
      (X835.firstDuplicate seen ns = none ↔ ns.Nodup ∧ ∀ x ∈ ns, x ∉ seen) := by
  induction ns with
  | nil => intro seen; simp [X835.firstDuplicate]
  | cons n ns ih =>
    intro seen
    by_cases hn : n ∈ seen
    · simp only [X835.firstDuplicate, if_pos hn]
      constructor
      · intro h; exact absurd h (by simp)
      · rintro ⟨-, hall⟩
        exact absurd hn (hall n (by simp))
    · simp only [X835.firstDuplicate, if_neg hn, ih (n :: seen)]
      constructor
      · rintro ⟨hnodup, hall⟩
        refine ⟨List.nodup_cons.mpr ⟨fun hmem => ?_, hnodup⟩, ?_⟩
        · exact (hall n hmem) (by simp)
        · intro x hx
          rcases List.mem_cons.mp hx with rfl | hx
          · exact hn
          · intro hxs
            exact hall x hx (List.mem_cons_of_mem _ hxs)
      · rintro ⟨hnodup, hall⟩
        rcases List.nodup_cons.mp hnodup with ⟨hnotin, hnodup'⟩
        refine ⟨hnodup', ?_⟩
        intro x hx hxmem
        rcases List.mem_cons.mp hxmem with rfl | hxs
        · exact hnotin hx
        · exact hall x (by simp [hx]) hxs

/-- The tally of `_validate_duplicate_codes` finds no duplicates exactly
when every code value occurs at most once. -/
theorem duplicateCodes_eq_empty (codes : List (Option String)) :
    duplicateCodes codes = ∅ ↔ ∀ c, codes.count c ≤ 1 := by
  unfold duplicateCodes
  rw [List.toFinset_eq_empty_iff, List.filter_eq_nil_iff]
  constructor
  · intro h c
    by_cases hc : c ∈ codes
    · have := h c hc
      simp only [decide_eq_true_eq] at this
      omega
    · have : codes.count c = 0 := List.count_eq_zero.mpr hc
      omega
  · intro h a ha
    simp only [decide_eq_true_eq]
    have := h a
    omega

/-- The code side duplicate set equals the specification side set of values
occurring at least twice. -/
theorem duplicateCodes_eq_spec (codes : List (Option String)) :
    duplicateCodes codes = specDupValues codes := by
  unfold duplicateCodes specDupValues
  have h : (fun c => decide (1 < codes.count c)) =
      fun c => decide (2 ≤ codes.count c) := by
    funext c
    exact decide_eq_decide.mpr (by omega)
  rw [h]

/-- Counting a qualifier among the projected `some` codes counts it among
the raw qualifier strings. -/
theorem count_some_codes (qs : List String) (q : String) :
    (qs.map some).count (some q) = qs.count q := by
  induction qs with
  | nil => rfl
  | cons x xs ih => simp [List.count_cons, ih]

/-- One cent added to line `i` adds one cent to the line total of the
004010X096A1 claim loop. -/
theorem X837v4010.perturbLines_sum_v4 (xs : List X837v4010.Loop2400) :
    ∀ i, i < xs.length →
      ((X837v4010.perturbLines xs i).map
          (fun l => l.sv2_segment.line_item_charge_amount)).sum =
        (xs.map (fun l => l.sv2_segment.line_item_charge_amount)).sum + 1 / 100 := by
  induction xs with
  | nil =>
    intro i h
    simp at h
  | cons x xs ih =>
    intro i h
    cases i with
    | zero =>
      simp [X837v4010.perturbLines]
      ring
    | succ i =>
      have hi : i < xs.length := by simpa using h
      simp [X837v4010.perturbLines, ih i hi]
      ring

/-- One cent added to line `i` adds one cent to the line total of the
005010X223A3 claim loop. -/
theorem X837v5010.perturbLines_sum_v5 (xs : List X837v5010.Loop2400) :
    ∀ i, i < xs.length →
      ((X837v5010.perturbLines xs i).map
          (fun l => l.sv2_segment.line_item_charge_amount)).sum =
        (xs.map (fun l => l.sv2_segment.line_item_charge_amount)).sum + 1 / 100 := by
  induction xs with
  | nil =>
    intro i h
    simp at h
  | cons x xs ih =>
    intro i h
    cases i with
    | zero =>
      simp [X837v5010.perturbLines]
      ring
    | succ i =>
      have hi : i < xs.length := by simpa using h
      simp [X837v5010.perturbLines, ih i hi]
      ring

/-- A duplicate found by the scan occurs at least twice among the seen and
remaining numbers together. -/
theorem firstDuplicate_some_count (ns : List ℤ) :
    ∀ (seen : List ℤ) (n : ℤ),
      X835.firstDuplicate seen ns = some n → 2 ≤ (seen ++ ns).count n := by
  induction ns with
  | nil => intro seen n h; simp [X835.firstDuplicate] at h
  | cons m ns ih =>
    intro seen n h
    by_cases hm : m ∈ seen
    · simp only [X835.firstDuplicate, if_pos hm] at h
      obtain rfl : m = n := Option.some.inj h
      have h1 : 1 ≤ seen.count m := List.one_le_count_iff.mpr hm
      have h2 : 1 ≤ (m :: ns).count m := by
        rw [List.count_cons_self]
        omega
      rw [List.count_append]
      omega
    · simp only [X835.firstDuplicate, if_neg hm] at h
      have := ih (m :: seen) n h
      have hperm : ((m :: seen) ++ ns).count n = (seen ++ m :: ns).count n := by
        have : ((m :: seen) ++ ns).Perm (seen ++ m :: ns) := by
          exact List.perm_middle.symm
        exact this.count_eq n
      omega

/-! ## Claim theorems -/

/-- Claim C1: the 835 Loop2100 balance validator accepts a claim payment
loop exactly when `charge - payment` equals the exact decimal sum of the
six positional amount slots of every CAS segment bound at the two nesting
levels, missing slots contributing zero.  The claim fails on the code for
loops without a claim level CAS list: the stored `None` returned by
`getattr(self, "cas_segment", [])` is iterated and raises `TypeError`
(there is no `or []` as on the `loop_2110` line), so a perfectly balanced
loop such as charge 10, payment 10, no adjustments is not accepted but
crashes.  For loops whose CAS list is bound, the accept-iff-balanced
equivalence does hold. -/
theorem c1_claim_payment_balance :
    (X835.Loop2100.validate_balance ⟨⟨10, 10⟩, none, none⟩ =
      .typeError noneIterMsg) ∧
    (∀ (clp : X835.ClpSegment) (cs : List X835.CasSegment)
        (sps : Option (List X835.Loop2110)),
      ((X835.Loop2100.mk clp (some cs) sps).validate_balance =
          .ok (X835.Loop2100.mk clp (some cs) sps) ↔
        clp.total_claim_charge_amount - clp.claim_payment_amount =
          ((X835.Loop2100.mk clp (some cs) sps).allCasSegments.map
              X835.CasSegment.amountSum).sum)) := by
  constructor
  · rfl
  · intro clp cs sps
    have houter : ∀ (l : List X835.Loop2110) (c : ℚ),
        l.foldl
            (fun acc sp =>
              acc + (sp.cas_segment.getD []).foldl (fun a s => a + s.adjustment) 0)
            c =
          c + (l.map
              (fun sp => ((sp.cas_segment.getD []).map X835.CasSegment.amountSum).sum)).sum := by
      intro l c
      have h := foldl_add_map_sum
        (fun sp : X835.Loop2110 =>
          ((sp.cas_segment.getD []).map X835.CasSegment.amountSum).sum) l c
      rw [← h]
      congr 1
      funext acc sp
      rw [X835.foldl_adjustment]
      ring
    have hadj :
        (sps.getD []).foldl
            (fun acc sp =>
              acc + (sp.cas_segment.getD []).foldl (fun a s => a + s.adjustment) 0)
            (cs.foldl (fun acc s => acc + s.adjustment) 0) =
          ((X835.Loop2100.mk clp (some cs) sps).allCasSegments.map
              X835.CasSegment.amountSum).sum := by
      rw [houter, X835.foldl_adjustment]
      simp [X835.Loop2100.allCasSegments, X835.serviceCas_sum]
    unfold X835.Loop2100.validate_balance
    dsimp only
    rw [hadj]
    by_cases hbal :
        clp.total_claim_charge_amount - clp.claim_payment_amount =
          ((X835.Loop2100.mk clp (some cs) sps).allCasSegments.map
              X835.CasSegment.amountSum).sum
    · simp [hbal]
    · simp [hbal]

/-- Claim C2: in both 837 models (004010X096A1 and 005010X223A3) the claim
loop validator passes exactly when the CLM total claim charge amount
equals the exact decimal sum of the SV2 line item charge amounts of its
service lines; and perturbing any single line charge of a balanced claim
by one cent makes it fail with the balance violation citing the two
amounts, whose difference is exactly the one cent delta. -/
theorem c2_claim_amounts :
    (∀ l : X837v4010.Loop2300,
      (l.validate_claim_amounts = .ok l ↔
        l.clm_segment.total_claim_charge_amount = l.lineTotal)) ∧
    (∀ l : X837v5010.Loop2300,
      (l.validate_claim_amounts = .ok l ↔
        l.clm_segment.total_claim_charge_amount = l.lineTotal)) ∧
    (∀ (l : X837v4010.Loop2300) (i : ℕ), i < l.loop_2400.length →
      l.clm_segment.total_claim_charge_amount = l.lineTotal →
      (l.perturb i).validate_claim_amounts =
        .valueError (X837v4010.balanceMsg l.clm_segment.total_claim_charge_amount
          (l.clm_segment.total_claim_charge_amount + 1 / 100)) ∧
      (l.perturb i).lineTotal - l.clm_segment.total_claim_charge_amount = 1 / 100) ∧
    (∀ (l : X837v5010.Loop2300) (i : ℕ), i < l.loop_2400.length →
      l.clm_segment.total_claim_charge_amount = l.lineTotal →
      (l.perturb i).validate_claim_amounts =
        .valueError (X837v5010.balanceMsg l.clm_segment.total_claim_charge_amount
          (l.clm_segment.total_claim_charge_amount + 1 / 100)) ∧
      (l.perturb i).lineTotal - l.clm_segment.total_claim_charge_amount = 1 / 100) := by
  have hfold4 : ∀ xs : List X837v4010.Loop2400,
      xs.foldl (fun acc line => acc + line.sv2_segment.line_item_charge_amount) 0 =
        (xs.map (fun line => line.sv2_segment.line_item_charge_amount)).sum := by
    intro xs
    rw [foldl_add_map_sum]
    ring
  have hfold5 : ∀ xs : List X837v5010.Loop2400,
      xs.foldl (fun acc line => acc + line.sv2_segment.line_item_charge_amount) 0 =
        (xs.map (fun line => line.sv2_segment.line_item_charge_amount)).sum := by
    intro xs
    rw [foldl_add_map_sum]
    ring
  have h4 : ∀ l : X837v4010.Loop2300,
      (l.validate_claim_amounts = .ok l ↔
        l.clm_segment.total_claim_charge_amount = l.lineTotal) := by
    intro l
    unfold X837v4010.Loop2300.validate_claim_amounts
    dsimp only
    rw [hfold4]
    by_cases hbal : l.clm_segment.total_claim_charge_amount = l.lineTotal
    · simp [X837v4010.Loop2300.lineTotal] at hbal
      simp [hbal, X837v4010.Loop2300.lineTotal]
    · simp [X837v4010.Loop2300.lineTotal] at hbal
      simp [hbal, X837v4010.Loop2300.lineTotal]
  have h5 : ∀ l : X837v5010.Loop2300,
      (l.validate_claim_amounts = .ok l ↔
        l.clm_segment.total_claim_charge_amount = l.lineTotal) := by
    intro l
    unfold X837v5010.Loop2300.validate_claim_amounts
    dsimp only
    rw [hfold5]
    by_cases hbal : l.clm_segment.total_claim_charge_amount = l.lineTotal
    · simp [X837v5010.Loop2300.lineTotal] at hbal
      simp [hbal, X837v5010.Loop2300.lineTotal]
    · simp [X837v5010.Loop2300.lineTotal] at hbal
      simp [hbal, X837v5010.Loop2300.lineTotal]
  refine ⟨h4, h5, ?_, ?_⟩
  · intro l i hi hbal
    have hsum : ((X837v4010.perturbLines l.loop_2400 i).map
          (fun line => line.sv2_segment.line_item_charge_amount)).sum =
        l.clm_segment.total_claim_charge_amount + 1 / 100 := by
      rw [X837v4010.perturbLines_sum_v4 l.loop_2400 i hi, hbal]
      rfl
    constructor
    · unfold X837v4010.Loop2300.validate_claim_amounts
      dsimp only [X837v4010.Loop2300.perturb]
      rw [hfold4, hsum]
      have hne : l.clm_segment.total_claim_charge_amount ≠
          l.clm_segment.total_claim_charge_amount + 1 / 100 := by
        intro h
        have : (1 : ℚ) / 100 = 0 := by linarith
        norm_num at this
      simp [hne]
    · show ((X837v4010.perturbLines l.loop_2400 i).map
          (fun line => line.sv2_segment.line_item_charge_amount)).sum -
          l.clm_segment.total_claim_charge_amount = 1 / 100
      rw [hsum]
      ring
  · intro l i hi hbal
    have hsum : ((X837v5010.perturbLines l.loop_2400 i).map
          (fun line => line.sv2_segment.line_item_charge_amount)).sum =
        l.clm_segment.total_claim_charge_amount + 1 / 100 := by
      rw [X837v5010.perturbLines_sum_v5 l.loop_2400 i hi, hbal]
      rfl
    constructor
    · unfold X837v5010.Loop2300.validate_claim_amounts
      dsimp only [X837v5010.Loop2300.perturb]
      rw [hfold5, hsum]
      have hne : l.clm_segment.total_claim_charge_amount ≠
          l.clm_segment.total_claim_charge_amount + 1 / 100 := by
        intro h
        have : (1 : ℚ) / 100 = 0 := by linarith
        norm_num at this
      simp [hne]
    · show ((X837v5010.perturbLines l.loop_2400 i).map
          (fun line => line.sv2_segment.line_item_charge_amount)).sum -
          l.clm_segment.total_claim_charge_amount = 1 / 100
      rw [hsum]
      ring

/-- Witness for claim C2: a claim with one 5.00 service line balancing its
5.00 charge amount, perturbed on line 0, fails in both 837 models with the
balance violation and a delta of exactly one cent. -/
theorem c2_claim_amounts_witness :
    ((X837v4010.Loop2300.mk ⟨5⟩ [⟨⟨5⟩⟩]).perturb 0).validate_claim_amounts =
        .valueError (X837v4010.balanceMsg 5 (5 + 1 / 100)) ∧
    ((X837v4010.Loop2300.mk ⟨5⟩ [⟨⟨5⟩⟩]).perturb 0).lineTotal - 5 = 1 / 100 ∧
    ((X837v5010.Loop2300.mk ⟨5⟩ [⟨⟨5⟩⟩]).perturb 0).validate_claim_amounts =
        .valueError (X837v5010.balanceMsg 5 (5 + 1 / 100)) ∧
    ((X837v5010.Loop2300.mk ⟨5⟩ [⟨⟨5⟩⟩]).perturb 0).lineTotal - 5 = 1 / 100 := by
  have h4 := c2_claim_amounts.2.2.1 (X837v4010.Loop2300.mk ⟨5⟩ [⟨⟨5⟩⟩]) 0
    (by decide) (by simp [X837v4010.Loop2300.lineTotal])
  have h5 := c2_claim_amounts.2.2.2 (X837v5010.Loop2300.mk ⟨5⟩ [⟨⟨5⟩⟩]) 0
    (by decide) (by simp [X837v5010.Loop2300.lineTotal])
  exact ⟨h4.1, h4.2, h5.1, h5.2⟩

/-- Claim C3: the duplicate qualifier validator raises exactly when some
qualifier value occurs on at least two occurrences of the repeating
segment within the loop instance, naming the segment collection, the
qualifier field and the set of duplicated values; on the D8, RD8, D8
example it names value D8, whose occurrence count is 2.  The claim fails
on the code for a loop whose optional collection is unbound: the dumped
dict stores `None` under the collection key, `values.get(segment_name, [])`
returns that `None` and iterating it raises `TypeError` instead of
passing. -/
theorem c3_duplicate_qualifier_codes :
    (validate_duplicate_date_qualifiers ⟨none⟩ = .typeError noneIterMsg) ∧
    (∀ segs : List DtpSegment,
      (validate_duplicate_date_qualifiers ⟨some segs⟩ = .ok ⟨some segs⟩ ↔
        ∀ q : String, (segs.map DtpSegment.date_time_qualifier).count q ≤ 1)) ∧
    (∀ segs : List DtpSegment,
      ¬ (∀ q : String, (segs.map DtpSegment.date_time_qualifier).count q ≤ 1) →
        validate_duplicate_date_qualifiers ⟨some segs⟩ =
          .valueError ⟨"dtp_segment", "date_time_qualifier",
            specDupValues (segs.map (fun s => some s.date_time_qualifier))⟩) ∧
    (validate_duplicate_date_qualifiers dtpD8Example =
        .valueError ⟨"dtp_segment", "date_time_qualifier", {some "D8"}⟩ ∧
      ((dtpD8Example.dtp_segment.getD []).map DtpSegment.date_time_qualifier).count "D8" = 2) := by
  have hmapmap : ∀ segs : List DtpSegment,
      segs.map (fun s => some s.date_time_qualifier) =
        (segs.map DtpSegment.date_time_qualifier).map some := by
    intro segs
    simp [List.map_map, Function.comp]
  have hcount : ∀ segs : List DtpSegment,
      (duplicateCodes (segs.map (fun s => some s.date_time_qualifier)) = ∅ ↔
        ∀ q : String, (segs.map DtpSegment.date_time_qualifier).count q ≤ 1) := by
    intro segs
    rw [duplicateCodes_eq_empty]
    constructor
    · intro h q
      have hq := h (some q)
      rwa [hmapmap, count_some_codes] at hq
    · intro h c
      cases c with
      | none =>
        have hz : (segs.map (fun s => some s.date_time_qualifier)).count none = 0 := by
          apply List.count_eq_zero.mpr
          simp
        omega
      | some q =>
        rw [hmapmap, count_some_codes]
        exact h q
  refine ⟨rfl, ?_, ?_, by decide, by decide⟩
  · intro segs
    unfold validate_duplicate_date_qualifiers _validate_duplicate_codes
    dsimp only
    by_cases hd : duplicateCodes (segs.map (fun s => some s.date_time_qualifier)) = ∅
    · rw [if_neg (by simpa using hd)]
      simp only []
      constructor
      · intro _
        exact (hcount segs).mp hd
      · intro _
        trivial
    · rw [if_pos (by simpa using hd)]
      simp only []
      constructor
      · intro h
        exact absurd h (by simp)
      · intro h
        exact absurd ((hcount segs).mpr h) hd
  · intro segs h
    have hd : duplicateCodes (segs.map (fun s => some s.date_time_qualifier)) ≠ ∅ :=
      fun hd => h ((hcount segs).mp hd)
    unfold validate_duplicate_date_qualifiers _validate_duplicate_codes
    dsimp only
    rw [if_pos (by simpa using hd)]
    simp only []
    rw [duplicateCodes_eq_spec]

/-- Witness for claim C3: the main theorem applied to the D8, RD8, D8
example, discharging the duplicate-existence hypothesis there. -/
theorem c3_duplicate_qualifier_codes_witness :
    validate_duplicate_date_qualifiers ⟨some [⟨"D8"⟩, ⟨"RD8"⟩, ⟨"D8"⟩]⟩ =
      .valueError ⟨"dtp_segment", "date_time_qualifier",
        specDupValues
          (([⟨"D8"⟩, ⟨"RD8"⟩, ⟨"D8"⟩] : List DtpSegment).map
            (fun s => some s.date_time_qualifier))⟩ :=
  c3_duplicate_qualifier_codes.2.2.1 [⟨"D8"⟩, ⟨"RD8"⟩, ⟨"D8"⟩]
    (fun h => absurd (h "D8") (by decide))

/-- Claim C4: a transaction set passes the segment count validator exactly
when the declared SE trailer count equals the recursively counted number
of segments bound into the tree; and mutating the trailer of a passing
tree with count `N` (at least 2) to `N + 1` or `N - 1` yields exactly the
single count mismatch `ValueError` and no other failure.  The segment
counting itself is modelled from the specification, `support.py` not being
part of the excerpted source. -/
theorem c4_segment_count_parity :
    (∀ t : TransactionSetModel,
      (validate_segment_count t = .ok t ↔
        t.footer.se_segment.transaction_segment_count =
          some (t.actualCount : ℤ))) ∧
    (∀ (t : TransactionSetModel) (N : ℤ),
      validate_segment_count t = .ok t →
      t.footer.se_segment.transaction_segment_count = some N →
      2 ≤ N →
      validate_segment_count (t.withCount (N + 1)) =
        .valueError s!"SE segment count {N + 1} != actual count {(t.actualCount : ℤ)}" ∧
      validate_segment_count (t.withCount (N - 1)) =
        .valueError s!"SE segment count {N - 1} != actual count {(t.actualCount : ℤ)}") := by
  have hpos : ∀ t : TransactionSetModel, 1 ≤ (t.actualCount : ℤ) := by
    intro t
    have : 1 ≤ t.actualCount := Nat.le_add_left 1 _
    exact_mod_cast this
  have hiff : ∀ t : TransactionSetModel,
      (validate_segment_count t = .ok t ↔
        t.footer.se_segment.transaction_segment_count =
          some (t.actualCount : ℤ)) := by
    intro t
    unfold validate_segment_count
    dsimp only
    cases hc : t.footer.se_segment.transaction_segment_count with
    | none => simp [truthyCount]
    | some n =>
      by_cases hn : n = 0
      · subst hn
        rw [if_pos (by simp [truthyCount])]
        have := hpos t
        constructor
        · intro h
          exact absurd h (by simp)
        · intro h
          have : (0 : ℤ) = (t.actualCount : ℤ) := by
            simpa using h
          omega
      · rw [if_neg (by simp [truthyCount, hn])]
        by_cases he : n = (t.actualCount : ℤ)
        · rw [if_neg (by simpa using he)]
          simp [he]
        · rw [if_pos (by simpa using he)]
          constructor
          · intro h
            exact absurd h (by simp)
          · intro h
            exact absurd (by simpa using h) he
  refine ⟨hiff, ?_⟩
  intro t N hok hN h2
  have hNa : N = (t.actualCount : ℤ) := by
    have := (hiff t).mp hok
    rw [hN] at this
    exact Option.some.inj this
  have hmut : ∀ M : ℤ, M ≠ 0 → M ≠ (t.actualCount : ℤ) →
      validate_segment_count (t.withCount M) =
        .valueError s!"SE segment count {M} != actual count {(t.actualCount : ℤ)}" := by
    intro M hM0 hMne
    unfold validate_segment_count
    dsimp only [TransactionSetModel.withCount]
    rw [if_neg (by simp [truthyCount, hM0])]
    rw [if_pos (by simpa [TransactionSetModel.actualCount] using hMne)]
    rfl
  constructor
  · exact hmut (N + 1) (by omega) (by omega)
  · exact hmut (N - 1) (by omega) (by omega)

/-- Witness for claim C4: a tree with one body segment plus the SE segment
(actual count 2) and declared count 2 passes; mutated trailers 3 and 1
each produce exactly the count mismatch error. -/
theorem c4_segment_count_parity_witness :
    validate_segment_count
        (TransactionSetModel.mk [X12Node.segment] ⟨⟨some 3⟩⟩ |>.withCount 3) =
      .valueError "SE segment count 3 != actual count 2" ∧
    validate_segment_count
        (TransactionSetModel.mk [X12Node.segment] ⟨⟨some 1⟩⟩ |>.withCount 1) =
      .valueError "SE segment count 1 != actual count 2" := by
  have h := c4_segment_count_parity.2
    (TransactionSetModel.mk [X12Node.segment] ⟨⟨some 2⟩⟩) 2 rfl rfl (by omega)
  exact ⟨h.1, h.2⟩

/-- Claim C8: a footer whose declared segment count field is absent (or
parsed to the falsy value 0) makes `validate_segment_count` raise the
`ValueError` with the exact not-found message; being a `ValueError`, the
framework reports it as a validation failure of the transaction rather
than crashing. -/
theorem c8_missing_trailer_count (t : TransactionSetModel)
    (h : t.footer.se_segment.transaction_segment_count = none ∨
      t.footer.se_segment.transaction_segment_count = some 0) :
    validate_segment_count t =
      .valueError "Expected transaction count not found in SE segment" := by
  unfold validate_segment_count
  rcases h with h | h <;>
    rw [if_pos (by simp [h, truthyCount])]

/-- Witness for claim C8: a transaction set whose SE segment carries no
count value fails with the not-found message. -/
theorem c8_missing_trailer_count_witness :
    validate_segment_count (TransactionSetModel.mk [X12Node.segment] ⟨⟨none⟩⟩) =
      .valueError "Expected transaction count not found in SE segment" :=
  c8_missing_trailer_count (TransactionSetModel.mk [X12Node.segment] ⟨⟨none⟩⟩)
    (Or.inl rfl)

/-- Claim C9: an 835 transaction set passes `validate_lx_header` exactly
when the LX assigned numbers of its Loop2000 occurrences are pairwise
distinct; when some number repeats, the raised `ValueError` names a number
that occurs at least twice. -/
theorem c9_unique_lx_numbers :
    (∀ t : X835.HealthCareClaimPayment,
      (t.validate_lx_header = .ok t ↔ t.lxNumbers.Nodup)) ∧
    (∀ t : X835.HealthCareClaimPayment, ¬ t.lxNumbers.Nodup →
      ∃ n : ℤ,
        t.validate_lx_header = .valueError s!"duplicate assigned_numbers {n}" ∧
        2 ≤ t.lxNumbers.count n) := by
  constructor
  · intro t
    unfold X835.HealthCareClaimPayment.validate_lx_header
    cases hfd : X835.firstDuplicate [] t.lxNumbers with
    | none =>
      have hnp := (firstDuplicate_eq_none t.lxNumbers []).mp hfd
      simp [hnp.1]
    | some n =>
      have hnodup : ¬ t.lxNumbers.Nodup := by
        intro hnd
        have : X835.firstDuplicate [] t.lxNumbers = none :=
          (firstDuplicate_eq_none t.lxNumbers []).mpr ⟨hnd, by simp⟩
        rw [this] at hfd
        exact Option.noConfusion hfd
      simp [hnodup]
  · intro t hnd
    cases hfd : X835.firstDuplicate [] t.lxNumbers with
    | none =>
      have := (firstDuplicate_eq_none t.lxNumbers []).mp hfd
      exact absurd this.1 hnd
    | some n =>
      refine ⟨n, ?_, ?_⟩
      · unfold X835.HealthCareClaimPayment.validate_lx_header
        rw [hfd]
      · have := firstDuplicate_some_count t.lxNumbers [] n hfd
        simpa using this

/-- Witness for claim C9: a payment with two Loop2000 occurrences both
numbered 7 is rejected with a duplicate number occurring twice. -/
theorem c9_unique_lx_numbers_witness :
    ∃ n : ℤ,
      (X835.HealthCareClaimPayment.mk [⟨⟨7⟩⟩, ⟨⟨7⟩⟩]).validate_lx_header =
        .valueError s!"duplicate assigned_numbers {n}" ∧
      2 ≤ (X835.HealthCareClaimPayment.mk [⟨⟨7⟩⟩, ⟨⟨7⟩⟩]).lxNumbers.count n :=
  c9_unique_lx_numbers.2 (X835.HealthCareClaimPayment.mk [⟨⟨7⟩⟩, ⟨⟨7⟩⟩])
    (by decide)

/-- Claim C10: when the previously validated sibling qualifier is absent
(or empty), `validate_date_field` returns the raw value unchanged and
performs no date format validation, for every string value however
malformed. -/
theorem c10_no_qualifier_no_validation :
    ∀ v : String,
      validate_date_field none v = .ok (.raw v) ∧
      validate_date_field (some "") v = .ok (.raw v) := by
  intro v
  constructor
  · unfold validate_date_field
    rw [if_pos (Or.inl rfl)]
  · unfold validate_date_field
    rw [if_pos (Or.inr rfl)]

/-- Claim C6: the red cross REF code restriction is never enforced.  The
validator collects `ref_types` from `values.get("ref_segments", [])`, but
the dumped model has no `ref_segments` key (the field is `ref_segment`),
so `ref_types` is always empty, the restriction condition is always false,
and even the loop of the claim - benefit code `"R"` with a bound REF
qualifier `"9X"` outside the permitted set - passes the check. -/
theorem c6_red_cross_restriction_never_enforced :
    (X271.Loop2110C.validate_red_cross_eb_ref_codes X271.redCrossBadLoop =
      .ok X271.redCrossBadLoop) ∧
    (∀ l : X271.Loop2110C,
      l.validate_red_cross_eb_ref_codes = .ok l) := by
  have hall : ∀ l : X271.Loop2110C,
      l.validate_red_cross_eb_ref_codes = .ok l := by
    intro l
    have hkey : l.getRefList "ref_segments" = [] := by
      unfold X271.Loop2110C.getRefList
      rw [if_neg (by decide)]
    unfold X271.Loop2110C.validate_red_cross_eb_ref_codes
    simp [hkey]
  exact ⟨hall _, hall⟩

/-- Claim C7 counterexample: the claim asserts that a Loop2110C carrying
both a duplicate REF qualifier violation and a red cross code restriction
violation yields the complete accumulated list of both violations.  On the
concrete two-violation loop the declared validator chain reports exactly
one violation (the duplicate code one), so the returned list does not have
the claimed two entries. -/
theorem c7_counterexample :
    (X271.runPostRootValidators X271.loop2110CValidators
        X271.twoViolationLoop).2 =
      [X271.V271Error.dup
        ⟨"ref_segment", "reference_identification_qualifier", {some "9X"}⟩] ∧
    ¬ ((X271.runPostRootValidators X271.loop2110CValidators
        X271.twoViolationLoop).2.length = 2) := by
  decide

/-- Claim C7 (amended): when one Loop2110C carries both duplicate REF
qualifier codes and a red cross restriction violation, the validator chain
reports only the duplicate code violation: a `skip_on_failure` check is
skipped once a prior check has failed, and the red cross check would pass
anyway since it reads the nonexistent `ref_segments` key - as shown by the
run with skipping disabled producing the same single violation and by the
red cross check alone accepting the loop. -/
theorem c7_first_violation_only :
    (X271.runPostRootValidators X271.loop2110CValidators
        X271.twoViolationLoop).2 =
      [X271.V271Error.dup
        ⟨"ref_segment", "reference_identification_qualifier", {some "9X"}⟩] ∧
    (X271.runPostRootValidators
        [(false, X271.Loop2110C.validate_duplicate_ref_codes),
         (false, X271.Loop2110C.validate_red_cross_eb_ref_codes)]
        X271.twoViolationLoop).2 =
      [X271.V271Error.dup
        ⟨"ref_segment", "reference_identification_qualifier", {some "9X"}⟩] ∧
    X271.Loop2110C.validate_red_cross_eb_ref_codes X271.twoViolationLoop =
      .ok X271.twoViolationLoop := by
  refine ⟨by decide, by decide, ?_⟩
  rfl

/-- Claim C5 counterexample: the claim requires an `RD8` qualified value
to split on the dash into exactly two independently valid X12 dates, any
mismatch raising a `ValueError`.  The code instead validates every
dash-separated piece, however many there are: this value splits into three
valid dates and is accepted unchanged instead of being rejected. -/
theorem c5_counterexample :
    validate_date_field (some "RD8") "20210101-20210202-20210303" =
      .ok (.raw "20210101-20210202-20210303") ∧
    (dashParts "20210101-20210202-20210303").length = 3 := by
  constructor
  · rfl
  · rfl

/-- Claim C5 (amended): for a nonempty qualifier, the date field validator
passes exactly when either the qualifier is `RD8`, the value contains the
range separator and every dash-separated piece (not necessarily two) is an
independently valid X12 date, or the qualifier is any other value and the
value parses as a single valid X12 date; every mismatch between qualifier
and format raises a `ValueError`.  X12 date validity itself is modelled
from the specification, `support.py` not being part of the excerpted
source. -/
theorem c5_qualifier_conditioned_date_format (q v : String) (hq : q ≠ "") :
    (validate_date_field (some q) v).isOk = true ↔
      ((q = "RD8" ∧ v.data.contains '-' = true ∧
        ∀ d ∈ dashParts v, (parse_x12_date d).isSome = true) ∨
       (q ≠ "RD8" ∧ (parse_x12_date v).isSome = true)) := by
  unfold validate_date_field
  rw [if_neg (by simp [hq])]
  by_cases hr : q = "RD8"
  · subst hr
    rw [if_pos rfl]
    by_cases hd : v.data.contains '-' = false
    · rw [if_pos hd]
      constructor
      · intro h
        exact Bool.noConfusion h
      · rintro (⟨-, hc, -⟩ | ⟨hne, -⟩)
        · rw [hd] at hc
          exact Bool.noConfusion hc
        · exact absurd rfl hne
    · have hd' : v.data.contains '-' = true := by
        revert hd
        cases v.data.contains '-' <;> simp
      rw [if_neg hd]
      cases hf : (dashParts v).find? (fun d => (parse_x12_date d).isNone) with
      | some d =>
        simp only [hf]
        constructor
        · intro h
          exact Bool.noConfusion h
        · rintro (⟨-, -, hall⟩ | ⟨hne, -⟩)
          · have hmem := List.mem_of_find?_eq_some hf
            have hbad := List.find?_some hf
            have hiss := hall d hmem
            simp only [Option.isNone_iff_eq_none] at hbad
            rw [hbad] at hiss
            exact Bool.noConfusion hiss
          · exact absurd rfl hne
      | none =>
        simp only [hf]
        refine iff_of_true rfl (Or.inl ⟨by trivial, hd', ?_⟩)
        intro d hmem
        have hnone := List.find?_eq_none.mp hf d hmem
        cases hp : parse_x12_date d with
        | none => exact absurd (by rw [hp]; rfl) hnone
        | some dt => rfl
  · rw [if_neg (by simpa using hr)]
    cases hp : parse_x12_date v with
    | some dt =>
      simp only [hp]
      exact iff_of_true rfl (Or.inr ⟨hr, rfl⟩)
    | none =>
      simp only [hp]
      constructor
      · intro h
        exact Bool.noConfusion h
      · rintro (⟨hrd, -, -⟩ | ⟨-, hsome⟩)
        · exact absurd hrd hr
        · exact Bool.noConfusion hsome

/-- Witness for claim C5: a `D8` qualified single date passes, and the
amended equivalence instantiates at that input. -/
theorem c5_qualifier_conditioned_date_format_witness :
    (validate_date_field (some "D8") "20210315").isOk = true ↔
      (("D8" = "RD8" ∧ ("20210315" : String).data.contains '-' = true ∧
        ∀ d ∈ dashParts "20210315", (parse_x12_date d).isSome = true) ∨
       ("D8" ≠ "RD8" ∧ (parse_x12_date "20210315").isSome = true)) :=
  c5_qualifier_conditioned_date_format "D8" "20210315" (by decide)

end X12
